import Mathlib

/-!
Shallow embedding of the JSBLEDebug presence relay.

The repository holds three near-duplicate servers:
src/server.py (Flask-SocketIO handlers plus a REST mirror),
src/ally-server.py (python-socketio handlers plus a staleness reaper) and
src/rest_server.py (REST-only mirror). JSON payload values are modelled by
JVal, Python dicts by association lists with string keys, timestamps by
rationals, and each sio.emit call by a message paired with its addressing.
-/

/-- JSON-like Python values as they appear in payloads and state tables.
Numbers (Python int and float) are modelled by rationals. -/
inductive JVal where
  | jnull : JVal
  | jbool : Bool → JVal
  | jnum : ℚ → JVal
  | jstr : String → JVal
  | jobj : List (String × JVal) → JVal

mutual

/-- Structural equality test on payload values; dict comparison is modelled
as ordered structural equality of the entry lists. -/
def beqJ : JVal → JVal → Bool
  | .jnull, .jnull => true
  | .jbool a, .jbool b => a == b
  | .jnum a, .jnum b => a == b
  | .jstr a, .jstr b => a == b
  | .jobj a, .jobj b => beqObj a b
  | _, _ => false

/-- Pointwise equality test on dict entry lists. -/
def beqObj : List (String × JVal) → List (String × JVal) → Bool
  | [], [] => true
  | (k, v) :: xs, (k', v') :: ys => k == k' && beqJ v v' && beqObj xs ys
  | _, _ => false

end

/-- A Python dict payload with string keys, as an association list. -/
abbrev Dict := List (String × JVal)

/-- Python d.get(k, dflt). -/
def dget (d : Dict) (k : String) (dflt : JVal) : JVal :=
  match List.lookup k d with
  | some v => v
  | none => dflt

/-- Python membership k in d for a dict d. -/
def dmem (k : String) (d : Dict) : Bool :=
  (List.lookup k d).isSome

/-- Python truthiness of a payload value: None, False, 0, the empty string
and the empty dict are falsy. -/
def truthy : JVal → Bool
  | .jnull => false
  | .jbool b => b
  | .jnum q => q != 0
  | .jstr s => s != ""
  | .jobj d => !d.isEmpty

/-- Python isinstance(x, (int, float)): true for numbers and also for
booleans, since bool is a subclass of int in Python. -/
def isNumericPy : JVal → Bool
  | .jnum _ => true
  | .jbool _ => true
  | _ => false

/-- Whether a payload value is a dict, Python isinstance(x, dict). -/
def isObj : JVal → Bool
  | .jobj _ => true
  | _ => false

/-- Python equality on payload values as used by the team comparison in the
teammate filter: True equals 1 and False equals 0 (bool is an int subclass);
otherwise values of different types are unequal and values of the same type
compare structurally. -/
def pyEq (a b : JVal) : Bool :=
  match a, b with
  | .jbool x, .jnum q => (if x then (1 : ℚ) else 0) == q
  | .jnum q, .jbool x => q == (if x then (1 : ℚ) else 0)
  | _, _ => beqJ a b

/-- A server-side table keyed by session or client id: a Python dict whose
keys are unique by construction. -/
abbrev Table (α : Type) := List (String × α)

/-- Dict assignment t[k] = v: replaces the value in place when the key is
present (Python dicts keep insertion order), appends otherwise. -/
def tinsert (k : String) (v : α) : Table α → Table α
  | [] => [(k, v)]
  | p :: t => if p.1 = k then (k, v) :: t else p :: tinsert k v t

/-- Dict deletion del t[k], tolerating absence (the sources either guard the
deletion with an in-check or use pop with a default). -/
def terase (k : String) (t : Table α) : Table α :=
  t.filter (fun p => p.1 != k)

/-- Addressing of one emit call: to a single sid, to everyone (broadcast),
or to everyone except one sid (skip_sid or include_self false). -/
inductive Target where
  | toSid (s : String)
  | broadcast
  | skip (s : String)
deriving DecidableEq

/-- Whether an emit addressed by t is delivered to connected client r, where
conn lists the currently connected sids. -/
def Target.hits (t : Target) (r : String) (conn : List String) : Bool :=
  match t with
  | .toSid s => r == s && conn.contains r
  | .broadcast => conn.contains r
  | .skip s => conn.contains r && r != s

namespace Ally

/-- Connection record held in the clients dict of src/ally-server.py. -/
structure ConnRec where
  connectedAt : ℚ
  ip : String
  lastUpdate : ℚ

/-- Presence record stored in client_states by update_state of
src/ally-server.py; every stored record carries all seven keys. -/
structure ARec where
  lat : JVal
  lon : JVal
  bearing : JVal
  team : JVal
  isDead : JVal
  kaiTagConnected : JVal
  timestamp : ℚ

/-- Outbound socket.io events emitted by src/ally-server.py. -/
inductive Msg where
  | your_id (id : String)
  | all_states (snap : Table ARec)
  | client_disconnected (id : String)
  | bearing_updated (clientId : String) (bearing : JVal) (timestamp : ℚ)
  | new_drawing (clientId : String) (geojson : JVal) (team : JVal) (timestamp : ℚ)

/-- Whether a message is a new_drawing event. -/
def Msg.isNewDrawing : Msg → Bool
  | .new_drawing _ _ _ _ => true
  | _ => false

/-- Whether a message is a client_disconnected event. -/
def Msg.isClientDisconnected : Msg → Bool
  | .client_disconnected _ => true
  | _ => false

/-- Handler connect of src/ally-server.py: registers the connection record
and sends the new client its id and the current state snapshot. -/
def connect (clients : Table ConnRec) (states : Table ARec) (sid : String)
    (client_ip : String) (now : ℚ) : Table ConnRec × List (Msg × Target) :=
  (tinsert sid { connectedAt := now, ip := client_ip, lastUpdate := now } clients,
   [(.your_id sid, .toSid sid), (.all_states states, .toSid sid)])

/-- Handler disconnect of src/ally-server.py: removes the sid from both
tables, notifies the others and refreshes all_states (both with skip_sid). -/
def disconnect (clients : Table ConnRec) (states : Table ARec) (sid : String) :
    Table ConnRec × Table ARec × List (Msg × Target) :=
  let states' := terase sid states
  (terase sid clients, states',
   [(.client_disconnected sid, .skip sid), (.all_states states', .skip sid)])

/-- Handler update_state of src/ally-server.py: a non-dict payload is logged
and dropped; a dict payload touches the connection record and replaces the
whole stored record, each field taken from the payload or its default, with
the timestamp stamped in milliseconds; then a bearing_updated delta goes to
the others and all_states to everyone. -/
def update_state (clients : Table ConnRec) (states : Table ARec) (sid : String)
    (data : JVal) (now : ℚ) :
    Table ConnRec × Table ARec × List (Msg × Target) :=
  match data with
  | .jobj d =>
      let clients' :=
        match List.lookup sid clients with
        | some c => tinsert sid { c with lastUpdate := now } clients
        | none => clients
      let r : ARec :=
        { lat := dget d "lat" (.jnum 0),
          lon := dget d "lon" (.jnum 0),
          bearing := dget d "bearing" (.jnum 0),
          team := dget d "team" (.jstr "blue"),
          isDead := dget d "isDead" (.jbool false),
          kaiTagConnected := dget d "kaiTagConnected" (.jbool false),
          timestamp := now * 1000 }
      let states' := tinsert sid r states
      (clients', states',
       [(.bearing_updated sid (dget d "bearing" (.jnum 0)) (now * 1000), .skip sid),
        (.all_states states', .broadcast)])
  | _ => (clients, states, [])

/-- Handler share_drawing of src/ally-server.py: a non-dict payload is
dropped; otherwise the drawing (with geojson defaulting to an empty dict and
team to blue) is sent individually to every stored identity whose team field
equals the payload team, excluding the sender. -/
def share_drawing (states : Table ARec) (sid : String) (data : JVal)
    (now : ℚ) : List (Msg × Target) :=
  match data with
  | .jobj d =>
      let team := dget d "team" (.jstr "blue")
      let teammates :=
        (states.filter (fun p => pyEq p.2.team team && p.1 != sid)).map Prod.fst
      teammates.map (fun teammate_sid =>
        (Msg.new_drawing sid (dget d "geojson" (.jobj [])) team (now * 1000),
         Target.toSid teammate_sid))
  | _ => []

/-- cleanup_stale_clients of src/ally-server.py: collects the sids whose last
update is more than 60 seconds old, removes each from both tables, and sends
a refreshed all_states only when at least one was removed; it never emits a
client_disconnected event. -/
def cleanup_stale_clients (clients : Table ConnRec) (states : Table ARec)
    (current_time : ℚ) :
    Table ConnRec × Table ARec × List (Msg × Target) :=
  let stale_clients :=
    (clients.filter (fun p => decide (60 < current_time - p.2.lastUpdate))).map Prod.fst
  let clients' := stale_clients.foldl (fun t s => terase s t) clients
  let states' := stale_clients.foldl (fun t s => terase s t) states
  (clients', states',
   if stale_clients.isEmpty then []
   else [(.all_states states', .broadcast)])

/-- Applying a sequence of update_state events of src/ally-server.py in
arrival order, threading the two tables (outbound messages discarded). -/
def run_update_states (clients : Table ConnRec) (states : Table ARec)
    (sid : String) : List (JVal × ℚ) → Table ConnRec × Table ARec
  | [] => (clients, states)
  | (d, t) :: rest =>
      let r := update_state clients states sid d t
      run_update_states r.1 r.2.1 sid rest

end Ally

namespace Srv

/-- Presence record stored in CLIENT_STATES of src/server.py; every record
ever stored there carries all seven keys (the REST register route, the
update_state merge and the update_bearing default all write the full set). -/
structure SRec where
  lat : JVal
  lon : JVal
  bearing : JVal
  kaiTagConnected : JVal
  isDead : JVal
  team : JVal
  timestamp : ℚ

/-- Outbound socket.io events emitted by src/server.py. -/
inductive Msg where
  | your_id (id : String)
  | all_states (snap : Table SRec)
  | client_disconnected (id : String)
  | bearing_updated (clientId : String) (bearing : JVal) (timestamp : ℚ)
  | new_drawing (geojson : JVal) (clientId : String) (team : JVal)

/-- Whether a message is a new_drawing event. -/
def Msg.isNewDrawing : Msg → Bool
  | .new_drawing _ _ _ => true
  | _ => false

/-- Whether a message is an all_states event. -/
def Msg.isAllStates : Msg → Bool
  | .all_states _ => true
  | _ => false

/-- Whether a message is a client_disconnected event. -/
def Msg.isClientDisconnected : Msg → Bool
  | .client_disconnected _ => true
  | _ => false

/-- The field-by-field merge performed by handle_update_state of
src/server.py. In the source an absent record is first created as an empty
dict and each field is then read as data.get(key, current.get(key, default));
the argument prior set to none corresponds to that freshly created empty
dict. Every record ever stored carries a team key, so the check that team is
not in the current record succeeds exactly when the record was just created,
that is when prior is none. -/
def mergeRec (prior : Option SRec) (d : Dict) (now : ℚ) : SRec :=
  { lat := dget d "lat" (match prior with | some r => r.lat | none => .jnum 0),
    lon := dget d "lon" (match prior with | some r => r.lon | none => .jnum 0),
    bearing := dget d "bearing" (match prior with | some r => r.bearing | none => .jnum 0),
    kaiTagConnected :=
      dget d "kaiTagConnected"
        (match prior with | some r => r.kaiTagConnected | none => .jbool true),
    isDead := dget d "isDead" (match prior with | some r => r.isDead | none => .jbool false),
    team :=
      if dmem "team" d then dget d "team" (.jstr "blue")
      else
        match prior with
        | some r => r.team
        | none => .jstr "blue",
    timestamp := now }

/-- Handler update_state of src/server.py: drops a non-dict payload with no
mutation and no emit, otherwise merges field-wise into the stored record and
broadcasts the whole table to everyone. -/
def handle_update_state (states : Table SRec) (sid : String) (data : JVal)
    (now : ℚ) : Table SRec × List (Msg × Target) :=
  match data with
  | .jobj d =>
      let states' := tinsert sid (mergeRec (List.lookup sid states) d now) states
      (states', [(.all_states states', .broadcast)])
  | _ => (states, [])

/-- The default record that handle_update_bearing of src/server.py creates
for a sid with no state yet; note the source creates it before the numeric
check on the bearing. -/
def defaultBearingRec : SRec :=
  { lat := .jnum 0, lon := .jnum 0, bearing := .jnum 0, timestamp := 0,
    team := .jstr "blue", kaiTagConnected := .jbool true, isDead := .jbool false }

/-- Handler update_bearing of src/server.py: first creates a default record
when the sid has none, then, only if the bearing passes the isinstance int
or float check, stores it with a fresh timestamp and broadcasts
bearing_updated to everyone. -/
def handle_update_bearing (states : Table SRec) (sid : String) (bearing : JVal)
    (now : ℚ) : Table SRec × List (Msg × Target) :=
  let states1 :=
    match List.lookup sid states with
    | some _ => states
    | none => tinsert sid defaultBearingRec states
  if isNumericPy bearing then
    match List.lookup sid states1 with
    | some r =>
        (tinsert sid { r with bearing := bearing, timestamp := now } states1,
         [(.bearing_updated sid bearing now, .broadcast)])
    | none => (states1, [(.bearing_updated sid bearing now, .broadcast)])
  else (states1, [])

/-- Handler share_drawing of src/server.py: requires a dict payload with both
geojson and team keys, then broadcasts the drawing to every other connected
client (include_self false) with no team filtering and no state change. -/
def handle_share_drawing (sid : String) (data : JVal) : List (Msg × Target) :=
  match data with
  | .jobj d =>
      if dmem "geojson" d && dmem "team" d then
        [(.new_drawing (dget d "geojson" .jnull) sid (dget d "team" .jnull), .skip sid)]
      else []
  | _ => []

/-- Handler disconnect of src/server.py: pops the state entry and broadcasts
client_disconnected; unlike src/ally-server.py it sends no all_states
refresh. -/
def handle_disconnect (states : Table SRec) (sid : String) :
    Table SRec × List (Msg × Target) :=
  (terase sid states, [(.client_disconnected sid, .broadcast)])

/-- Applying a sequence of update_state events of src/server.py in arrival
order (outbound messages discarded). -/
def run_update_states (states : Table SRec) (sid : String) :
    List (JVal × ℚ) → Table SRec
  | [] => states
  | (d, t) :: rest =>
      run_update_states (handle_update_state states sid d t).1 sid rest

end Srv

namespace Rest

/-- Presence record stored in CLIENT_STATES of src/rest_server.py; as in
src/server.py every stored record carries all seven keys. -/
structure RRec where
  lat : JVal
  lon : JVal
  bearing : JVal
  kaiTagConnected : JVal
  isDead : JVal
  team : JVal
  timestamp : ℚ

/-- The HTTP outcomes of the REST routes that the claims distinguish:
success, a 400 rejection, or an uncaught exception from applying the in
operator or the get method to an unsupported payload type. -/
inductive Resp where
  | ok
  | err400
  | raised
deriving DecidableEq

/-- The field-by-field merge of update_client_state of src/rest_server.py,
textually identical to the one in src/server.py: prior none corresponds to
the freshly created empty dict, and the team-not-in-record check succeeds
exactly when the record was just created. -/
def mergeRec (prior : Option RRec) (d : Dict) (now : ℚ) : RRec :=
  { lat := dget d "lat" (match prior with | some r => r.lat | none => .jnum 0),
    lon := dget d "lon" (match prior with | some r => r.lon | none => .jnum 0),
    bearing := dget d "bearing" (match prior with | some r => r.bearing | none => .jnum 0),
    kaiTagConnected :=
      dget d "kaiTagConnected"
        (match prior with | some r => r.kaiTagConnected | none => .jbool true),
    isDead := dget d "isDead" (match prior with | some r => r.isDead | none => .jbool false),
    team :=
      if dmem "team" d then dget d "team" (.jstr "blue")
      else
        match prior with
        | some r => r.team
        | none => .jstr "blue",
    timestamp := now }

/-- Route POST /api/clients/id/state of src/rest_server.py: a falsy body (in
particular the empty dict and None) or a non-dict body is rejected with 400
and no mutation; otherwise the body is merged field-wise like update_state. -/
def update_client_state (states : Table RRec) (client_id : String)
    (data : JVal) (now : ℚ) : Table RRec × Resp :=
  if truthy data = false then (states, .err400)
  else
    match data with
    | .jobj d =>
        (tinsert client_id (mergeRec (List.lookup client_id states) d now) states, .ok)
    | _ => (states, .err400)

/-- Python substring containment, for the in operator applied to a string. -/
def pyInStr (needle s : String) : Bool := 2 ≤ (s.splitOn needle).length

/-- Python membership k in x for a payload value: defined for dicts and
strings, a TypeError for the other payload types. -/
def pyContains (k : String) : JVal → Option Bool
  | .jobj d => some (dmem k d)
  | .jstr s => some (pyInStr k s)
  | _ => none

/-- Route POST /api/clients/id/bearing of src/rest_server.py: 400 when the
body is falsy or lacks a bearing key, 400 when the bearing value fails the
isinstance int or float check (which booleans pass); only after both checks
succeed is a default record created for an unknown id and the bearing and a
fresh timestamp stored. -/
def update_client_bearing (states : Table RRec) (client_id : String)
    (data : JVal) (now : ℚ) : Table RRec × Resp :=
  if truthy data = false then (states, .err400)
  else
    match pyContains "bearing" data with
    | none => (states, .raised)
    | some false => (states, .err400)
    | some true =>
        match data with
        | .jobj d =>
            if isNumericPy (dget d "bearing" .jnull) then
              let states1 :=
                match List.lookup client_id states with
                | some _ => states
                | none =>
                    tinsert client_id
                      { lat := .jnum 0, lon := .jnum 0, bearing := .jnum 0,
                        timestamp := 0, team := .jstr "blue",
                        kaiTagConnected := .jbool true, isDead := .jbool false }
                      states
              match List.lookup client_id states1 with
              | some r =>
                  (tinsert client_id
                    { r with bearing := dget d "bearing" .jnull, timestamp := now }
                    states1, .ok)
              | none => (states1, .ok)
            else (states, .err400)
        | _ => (states, .raised)

end Rest

namespace SpecModel

/-- PresenceState as section 3 of the spec describes it, for the refinement
comparison behind the left-fold property; tagLinked names the stored
kaiTagConnected field. -/
structure PRec where
  latitude : JVal
  longitude : JVal
  bearingDegrees : JVal
  team : JVal
  isDead : JVal
  tagLinked : JVal

/-- Field-wise last-write-wins merge exactly as the spec words it: a field
omitted from the payload keeps its previous stored value, a present field
takes the payload value. -/
def specMerge (r : PRec) (d : Dict) : PRec :=
  { latitude := dget d "lat" r.latitude,
    longitude := dget d "lon" r.longitude,
    bearingDegrees := dget d "bearing" r.bearingDegrees,
    team := dget d "team" r.team,
    isDead := dget d "isDead" r.isDead,
    tagLinked := dget d "kaiTagConnected" r.tagLinked }

/-- The record the spec predicts after a sequence of payloads applied in
arrival order starting from the creation defaults (team blue, everything
else zero or false). -/
def specFold (ds : List Dict) : PRec :=
  ds.foldl specMerge
    { latitude := .jnum 0, longitude := .jnum 0, bearingDegrees := .jnum 0,
      team := .jstr "blue", isDead := .jbool false, tagLinked := .jbool false }

end SpecModel

/-- A payload that does not explicitly carry a team field: a dict without
the team key, or a non-dict payload (which update_state drops anyway). -/
def payloadOmitsTeam : JVal → Bool
  | .jobj d => !dmem "team" d
  | _ => true

/-- Whether one of the emits of src/ally-server.py delivers a new_drawing to
connected client r. -/
def Ally.deliversNewDrawing (outs : List (Ally.Msg × Target)) (r : String)
    (conn : List String) : Bool :=
  outs.any (fun o => o.1.isNewDrawing && o.2.hits r conn)

/-- Whether one of the emits of src/server.py delivers a new_drawing to
connected client r. -/
def Srv.deliversNewDrawing (outs : List (Srv.Msg × Target)) (r : String)
    (conn : List String) : Bool :=
  outs.any (fun o => o.1.isNewDrawing && o.2.hits r conn)

/-- A sample stored record on team blue for src/ally-server.py, as its
update_state would create from an empty payload at time 0. -/
def allyBlueRec : Ally.ARec :=
  { lat := .jnum 0, lon := .jnum 0, bearing := .jnum 0, team := .jstr "blue",
    isDead := .jbool false, kaiTagConnected := .jbool false, timestamp := 0 }

/-- A sample stored record for src/server.py on team red. -/
def srvRedRec : Srv.SRec :=
  { Srv.defaultBearingRec with team := JVal.jstr "red" }

theorem lookup_tinsert_self (k : String) (v : α) (t : Table α) :
    List.lookup k (tinsert k v t) = some v := by
  induction t with
  | nil => simp [tinsert, List.lookup]
  | cons p t ih =>
      obtain ⟨a, b⟩ := p
      by_cases h : a = k
      · simp [tinsert, h, List.lookup]
      · have hne : (k == a) = false := by
          rw [beq_eq_false_iff_ne]
          exact fun he => h he.symm
        simp [tinsert, h, List.lookup, hne, ih]

theorem lookup_tinsert_ne (k k' : String) (v : α) (t : Table α)
    (h : k' ≠ k) : List.lookup k' (tinsert k v t) = List.lookup k' t := by
  have hkk : (k' == k) = false := by rw [beq_eq_false_iff_ne]; exact h
  induction t with
  | nil => simp [tinsert, List.lookup, hkk]
  | cons p t ih =>
      obtain ⟨a, b⟩ := p
      by_cases ha : a = k
      · subst ha
        simp [tinsert, List.lookup, hkk]
      · by_cases hc : k' = a
        · simp [tinsert, ha, List.lookup, hc]
        · have hc' : (k' == a) = false := by rw [beq_eq_false_iff_ne]; exact hc
          simp [tinsert, ha, List.lookup, hc', ih]

theorem lookup_terase_self (k : String) (t : Table α) :
    List.lookup k (terase k t) = none := by
  induction t with
  | nil => simp [terase]
  | cons p t ih =>
      obtain ⟨a, b⟩ := p
      by_cases h : a = k
      · subst h
        simpa [terase] using ih
      · have h1 : (a != k) = true := by simpa [bne_iff_ne] using h
        have h2 : (k == a) = false := by
          rw [beq_eq_false_iff_ne]
          exact fun he => h he.symm
        simpa [terase, h1, List.lookup, h2] using ih

theorem lookup_terase_ne (k k' : String) (t : Table α) (h : k' ≠ k) :
    List.lookup k' (terase k t) = List.lookup k' t := by
  induction t with
  | nil => simp [terase]
  | cons p t ih =>
      obtain ⟨a, b⟩ := p
      by_cases hp : a = k
      · subst hp
        have h2 : (k' == a) = false := by rw [beq_eq_false_iff_ne]; exact h
        simpa [terase, List.lookup, h2] using ih
      · have h1 : (a != k) = true := by simpa [bne_iff_ne] using hp
        by_cases hc : k' = a
        · simp [terase, h1, List.lookup, hc]
        · have hc' : (k' == a) = false := by rw [beq_eq_false_iff_ne]; exact hc
          simpa [terase, h1, List.lookup, hc'] using ih

theorem lookup_some_mem (k : String) (v : α) (t : Table α)
    (h : List.lookup k t = some v) : (k, v) ∈ t := by
  induction t with
  | nil => simp [List.lookup] at h
  | cons p t ih =>
      obtain ⟨a, b⟩ := p
      by_cases hk : k = a
      · subst hk
        simp only [List.lookup, beq_self_eq_true] at h
        simp at h
        simp [h]
      · have h2 : (k == a) = false := by rw [beq_eq_false_iff_ne]; exact hk
        simp only [List.lookup, h2] at h
        simp only [List.mem_cons]
        right
        exact ih h

theorem dget_absent (d : Dict) (k : String) (v : JVal) (h : dmem k d = false) :
    dget d k v = v := by
  unfold dget
  unfold dmem at h
  cases hx : List.lookup k d with
  | none => rfl
  | some w => rw [hx] at h; simp at h

theorem dget_present (d : Dict) (k : String) (v w : JVal)
    (h : List.lookup k d = some w) : dget d k v = w := by
  unfold dget
  rw [h]

theorem dmem_of_lookup (d : Dict) (k : String) (w : JVal)
    (h : List.lookup k d = some w) : dmem k d = true := by
  unfold dmem
  rw [h]
  rfl

theorem lookup_foldl_terase_none (k : String) (ks : List String) (t : Table α)
    (h : List.lookup k t = none) :
    List.lookup k (ks.foldl (fun t' s => terase s t') t) = none := by
  induction ks generalizing t with
  | nil => simpa using h
  | cons s rest ih =>
      simp only [List.foldl]
      apply ih
      by_cases hk : k = s
      · subst hk
        exact lookup_terase_self k t
      · rw [lookup_terase_ne s k t hk]
        exact h

theorem lookup_foldl_terase_mem (k : String) (ks : List String) (t : Table α) :
    k ∈ ks → List.lookup k (ks.foldl (fun t' s => terase s t') t) = none := by
  induction ks generalizing t with
  | nil => intro h; simp at h
  | cons s rest ih =>
      intro h
      simp only [List.foldl]
      by_cases hk : k = s
      · subst hk
        exact lookup_foldl_terase_none k rest _ (lookup_terase_self k t)
      · rcases List.mem_cons.mp h with h1 | h2
        · exact absurd h1 hk
        · exact ih _ h2

theorem srv_step_team_preserved (states : Table Srv.SRec) (sid : String)
    (r : Srv.SRec) (v : JVal) (now : ℚ)
    (hr : List.lookup sid states = some r) (hv : payloadOmitsTeam v = true) :
    ∃ r', List.lookup sid (Srv.handle_update_state states sid v now).1 = some r'
      ∧ r'.team = r.team := by
  cases v with
  | jobj d =>
      have hteam : dmem "team" d = false := by simpa [payloadOmitsTeam] using hv
      refine ⟨Srv.mergeRec (some r) d now, ?_, ?_⟩
      · simp [Srv.handle_update_state, hr, lookup_tinsert_self]
      · simp [Srv.mergeRec, hteam]
  | jnull => exact ⟨r, by simpa [Srv.handle_update_state] using hr, rfl⟩
  | jbool b => exact ⟨r, by simpa [Srv.handle_update_state] using hr, rfl⟩
  | jnum q => exact ⟨r, by simpa [Srv.handle_update_state] using hr, rfl⟩
  | jstr s => exact ⟨r, by simpa [Srv.handle_update_state] using hr, rfl⟩

/-- Claim C1 counterexample: under update_state of src/ally-server.py, a
payload setting team red followed by a payload omitting team leaves the
stored team blue, while the field-wise left-fold with omitted-field
preservation stated by the claim predicts red. -/
theorem c1_ally_team_reset_cex :
    (List.lookup "A"
      (Ally.run_update_states [] [] "A"
        [(.jobj [("team", .jstr "red")], 1), (.jobj [], 2)]).2).map Ally.ARec.team
      = some (.jstr "blue")
    ∧ (SpecModel.specFold [[("team", JVal.jstr "red")], []]).team = .jstr "red"
    ∧ JVal.jstr "blue" ≠ JVal.jstr "red" :=
  ⟨rfl, rfl, by simp⟩

/-- Claim C1 (amended): for handle_update_state of src/server.py the merge is
field-wise last-write-wins, so the final record is the field-wise left-fold
of the payloads in arrival order: an omitted field keeps its stored value, a
present field takes the payload value, and a stored team persists across any
sequence of update_state events whose payloads omit team; update_state of
src/ally-server.py instead replaces the whole record, so there an omitted
team resets to blue. -/
theorem c1_update_state_field_fold :
    (∀ (r : Srv.SRec) (d : Dict) (now : ℚ),
      (dmem "lat" d = false → (Srv.mergeRec (some r) d now).lat = r.lat)
      ∧ (dmem "lon" d = false → (Srv.mergeRec (some r) d now).lon = r.lon)
      ∧ (dmem "bearing" d = false → (Srv.mergeRec (some r) d now).bearing = r.bearing)
      ∧ (dmem "kaiTagConnected" d = false →
          (Srv.mergeRec (some r) d now).kaiTagConnected = r.kaiTagConnected)
      ∧ (dmem "isDead" d = false → (Srv.mergeRec (some r) d now).isDead = r.isDead)
      ∧ (dmem "team" d = false → (Srv.mergeRec (some r) d now).team = r.team)
      ∧ (∀ v, List.lookup "lat" d = some v → (Srv.mergeRec (some r) d now).lat = v)
      ∧ (∀ v, List.lookup "lon" d = some v → (Srv.mergeRec (some r) d now).lon = v)
      ∧ (∀ v, List.lookup "bearing" d = some v →
          (Srv.mergeRec (some r) d now).bearing = v)
      ∧ (∀ v, List.lookup "kaiTagConnected" d = some v →
          (Srv.mergeRec (some r) d now).kaiTagConnected = v)
      ∧ (∀ v, List.lookup "isDead" d = some v → (Srv.mergeRec (some r) d now).isDead = v)
      ∧ (∀ v, List.lookup "team" d = some v → (Srv.mergeRec (some r) d now).team = v))
    ∧ (∀ (states : Table Srv.SRec) (sid : String) (r : Srv.SRec)
        (ds : List (JVal × ℚ)),
        List.lookup sid states = some r →
        (∀ p ∈ ds, payloadOmitsTeam p.1 = true) →
        ∃ r', List.lookup sid (Srv.run_update_states states sid ds) = some r'
          ∧ r'.team = r.team)
    ∧ (∀ (clients : Table Ally.ConnRec) (states : Table Ally.ARec)
        (sid : String) (d : Dict) (now : ℚ),
        dmem "team" d = false →
        ∃ r', List.lookup sid
            (Ally.update_state clients states sid (.jobj d) now).2.1 = some r'
          ∧ r'.team = .jstr "blue") := by
  refine ⟨fun r d now => ?_, ?_, ?_⟩
  · refine ⟨?_, ?_, ?_, ?_, ?_, ?_, ?_, ?_, ?_, ?_, ?_, ?_⟩
    · intro h; simp [Srv.mergeRec, dget_absent _ _ _ h]
    · intro h; simp [Srv.mergeRec, dget_absent _ _ _ h]
    · intro h; simp [Srv.mergeRec, dget_absent _ _ _ h]
    · intro h; simp [Srv.mergeRec, dget_absent _ _ _ h]
    · intro h; simp [Srv.mergeRec, dget_absent _ _ _ h]
    · intro h; simp [Srv.mergeRec, h]
    · intro v hv; simp [Srv.mergeRec, dget_present _ _ _ _ hv]
    · intro v hv; simp [Srv.mergeRec, dget_present _ _ _ _ hv]
    · intro v hv; simp [Srv.mergeRec, dget_present _ _ _ _ hv]
    · intro v hv; simp [Srv.mergeRec, dget_present _ _ _ _ hv]
    · intro v hv; simp [Srv.mergeRec, dget_present _ _ _ _ hv]
    · intro v hv
      simp [Srv.mergeRec, dmem_of_lookup _ _ _ hv, dget_present _ _ _ _ hv]
  · intro states sid r ds
    induction ds generalizing states r with
    | nil =>
        intro hr _
        exact ⟨r, hr, rfl⟩
    | cons p rest ih =>
        intro hr hall
        obtain ⟨pd, pt⟩ := p
        obtain ⟨r1, hr1, ht1⟩ :=
          srv_step_team_preserved states sid r pd pt hr (hall (pd, pt) (by simp))
        obtain ⟨r', hr', ht'⟩ :=
          ih _ r1 hr1 (fun q hq => hall q (by simp [hq]))
        refine ⟨r', ?_, ht'.trans ht1⟩
        simpa [Srv.run_update_states] using hr'
  · intro clients states sid d now hteam
    refine ⟨{ lat := dget d "lat" (.jnum 0), lon := dget d "lon" (.jnum 0),
              bearing := dget d "bearing" (.jnum 0),
              team := dget d "team" (.jstr "blue"),
              isDead := dget d "isDead" (.jbool false),
              kaiTagConnected := dget d "kaiTagConnected" (.jbool false),
              timestamp := now * 1000 }, ?_, ?_⟩
    · simp [Ally.update_state, lookup_tinsert_self]
    · exact dget_absent _ _ _ hteam

/-- Claim C1 amended, checked at a concrete input: one update_state event
omitting team preserves the stored team in src/server.py. -/
theorem c1_update_state_field_fold_w :
    ∃ r', List.lookup "A"
        (Srv.run_update_states [("A", srvRedRec)] "A" [(.jobj [("lat", .jnum 3)], 4)])
          = some r'
      ∧ r'.team = srvRedRec.team :=
  c1_update_state_field_fold.2.1 [("A", srvRedRec)] "A" srvRedRec
    [(.jobj [("lat", .jnum 3)], 4)] rfl
    (by intro p hp; simp at hp; rw [hp]; rfl)

/-- Claim C3 counterexample: a non-numeric update_bearing from an identity
with no record is dropped by src/server.py with no outbound send, yet it
mutates the state table by creating a default record for that identity. -/
theorem c3_bearing_creates_record_cex :
    (Srv.handle_update_bearing [] "A" (.jstr "x") 5).1 = [("A", Srv.defaultBearingRec)]
    ∧ (Srv.handle_update_bearing [] "A" (.jstr "x") 5).2 = []
    ∧ ([("A", Srv.defaultBearingRec)] : Table Srv.SRec) ≠ [] :=
  ⟨rfl, rfl, by simp⟩

/-- Claim C3 (amended): a malformed event is dropped with no outbound send,
and with no mutation except on one path: non-dict update_state and
share_drawing payloads leave the tables untouched in both socket servers,
a non-numeric bearing leaves the table of src/server.py untouched when the
sender has an existing record, and a non-numeric REST bearing is rejected
with 400 and no mutation; the exception is update_bearing of src/server.py
for an identity with no existing record, which creates a default record
before validating (counterexample above). -/
theorem c3_malformed_dropped :
    (∀ (states : Table Srv.SRec) (sid : String) (v : JVal) (now : ℚ),
      isObj v = false → Srv.handle_update_state states sid v now = (states, []))
    ∧ (∀ (clients : Table Ally.ConnRec) (states : Table Ally.ARec) (sid : String)
        (v : JVal) (now : ℚ),
        isObj v = false → Ally.update_state clients states sid v now = (clients, states, []))
    ∧ (∀ (states : Table Ally.ARec) (sid : String) (v : JVal) (now : ℚ),
        isObj v = false → Ally.share_drawing states sid v now = [])
    ∧ (∀ (sid : String) (v : JVal),
        isObj v = false → Srv.handle_share_drawing sid v = [])
    ∧ (∀ (states : Table Srv.SRec) (sid : String) (b : JVal) (now : ℚ) (r : Srv.SRec),
        isNumericPy b = false → List.lookup sid states = some r →
        Srv.handle_update_bearing states sid b now = (states, []))
    ∧ (∀ (states : Table Rest.RRec) (cid : String) (d : Dict) (now : ℚ),
        dmem "bearing" d = true → isNumericPy (dget d "bearing" .jnull) = false →
        Rest.update_client_bearing states cid (.jobj d) now = (states, .err400)) := by
  refine ⟨?_, ?_, ?_, ?_, ?_, ?_⟩
  · intro states sid v now h
    cases v <;> simp_all [Srv.handle_update_state, isObj]
  · intro clients states sid v now h
    cases v <;> simp_all [Ally.update_state, isObj]
  · intro states sid v now h
    cases v <;> simp_all [Ally.share_drawing, isObj]
  · intro sid v h
    cases v <;> simp_all [Srv.handle_share_drawing, isObj]
  · intro states sid b now r hb hr
    simp [Srv.handle_update_bearing, hr, hb]
  · intro states cid d now hmem hb
    have hne : d.isEmpty = false := by
      cases d with
      | nil => simp [dmem, List.lookup] at hmem
      | cons x xs => rfl
    simp [Rest.update_client_bearing, truthy, hne, Rest.pyContains, hmem, hb]

/-- Claim C3 amended, checked at a concrete input: a non-numeric bearing
from an identity with an existing record mutates nothing and emits
nothing in src/server.py. -/
theorem c3_malformed_dropped_w :
    Srv.handle_update_bearing [("A", Srv.defaultBearingRec)] "A" (.jstr "x") 7
      = ([("A", Srv.defaultBearingRec)], []) :=
  c3_malformed_dropped.2.2.2.2.1 [("A", Srv.defaultBearingRec)] "A" (.jstr "x") 7
    Srv.defaultBearingRec rfl rfl

/-- Claim C5 counterexample: the disconnect handler of src/server.py emits
client_disconnected but no all_states refresh at all, against the claimed
exactly one refreshed all_states. -/
theorem c5_no_all_states_cex :
    ((Srv.handle_disconnect [("A", Srv.defaultBearingRec), ("B", Srv.defaultBearingRec)]
        "A").2.filter (fun o => o.1.isAllStates)).length = 0
    ∧ ((Srv.handle_disconnect [("A", Srv.defaultBearingRec), ("B", Srv.defaultBearingRec)]
        "A").2.filter (fun o => o.1.isClientDisconnected)).length = 1 :=
  ⟨rfl, rfl⟩

/-- Claim C5 (amended): the disconnect handler of src/ally-server.py removes
the client from both tables and emits exactly one client_disconnected and
one refreshed all_states (which excludes the disconnected identity), both
addressed to everyone but the leaving sid; the disconnect handler of
src/server.py removes the state record and emits exactly one
client_disconnected but no all_states refresh. -/
theorem c5_disconnect_emits (clients : Table Ally.ConnRec)
    (states : Table Ally.ARec) (sid : String) (sstates : Table Srv.SRec) :
    List.lookup sid (Ally.disconnect clients states sid).1 = none
    ∧ List.lookup sid (Ally.disconnect clients states sid).2.1 = none
    ∧ (Ally.disconnect clients states sid).2.2
        = [(.client_disconnected sid, .skip sid),
           (.all_states (Ally.disconnect clients states sid).2.1, .skip sid)]
    ∧ List.lookup sid (Srv.handle_disconnect sstates sid).1 = none
    ∧ (Srv.handle_disconnect sstates sid).2 = [(.client_disconnected sid, .broadcast)] :=
  ⟨lookup_terase_self sid clients, lookup_terase_self sid states, rfl,
   lookup_terase_self sid sstates, rfl⟩

/-- Claim C6 counterexample: a first update_state with an empty payload in
src/server.py creates a record whose kaiTagConnected field defaults to true,
not false, and whose timestamp is stamped in seconds, not milliseconds. -/
theorem c6_defaults_cex :
    (List.lookup "A" (Srv.handle_update_state [] "A" (.jobj []) 5).1)
      = some { lat := .jnum 0, lon := .jnum 0, bearing := .jnum 0,
               kaiTagConnected := .jbool true, isDead := .jbool false,
               team := .jstr "blue", timestamp := 5 }
    ∧ JVal.jbool true ≠ JVal.jbool false
    ∧ (5 : ℚ) ≠ 5 * 1000 :=
  ⟨rfl, by simp, by norm_num⟩

/-- Claim C6 (amended): in src/ally-server.py every update_state stores the
defaults 0, 0, 0, blue, false, false for omitted fields and always stamps
the timestamp as now times 1000; in src/server.py and src/rest_server.py a
record created by a first update_state gets the same defaults except that
kaiTagConnected defaults to true, and each update stamps the timestamp as
now in seconds. -/
theorem c6_creation_defaults :
    (∀ (clients : Table Ally.ConnRec) (states : Table Ally.ARec) (sid : String)
       (d : Dict) (now : ℚ),
      ∃ r', List.lookup sid (Ally.update_state clients states sid (.jobj d) now).2.1
          = some r'
        ∧ (dmem "lat" d = false → r'.lat = .jnum 0)
        ∧ (dmem "lon" d = false → r'.lon = .jnum 0)
        ∧ (dmem "bearing" d = false → r'.bearing = .jnum 0)
        ∧ (dmem "team" d = false → r'.team = .jstr "blue")
        ∧ (dmem "isDead" d = false → r'.isDead = .jbool false)
        ∧ (dmem "kaiTagConnected" d = false → r'.kaiTagConnected = .jbool false)
        ∧ r'.timestamp = now * 1000)
    ∧ (∀ (states : Table Srv.SRec) (sid : String) (d : Dict) (now : ℚ),
        List.lookup sid states = none →
        ∃ r', List.lookup sid (Srv.handle_update_state states sid (.jobj d) now).1
            = some r'
          ∧ (dmem "lat" d = false → r'.lat = .jnum 0)
          ∧ (dmem "lon" d = false → r'.lon = .jnum 0)
          ∧ (dmem "bearing" d = false → r'.bearing = .jnum 0)
          ∧ (dmem "team" d = false → r'.team = .jstr "blue")
          ∧ (dmem "isDead" d = false → r'.isDead = .jbool false)
          ∧ (dmem "kaiTagConnected" d = false → r'.kaiTagConnected = .jbool true)
          ∧ r'.timestamp = now)
    ∧ (∀ (states : Table Rest.RRec) (cid : String) (d : Dict) (now : ℚ),
        List.lookup cid states = none → d.isEmpty = false →
        ∃ r', List.lookup cid (Rest.update_client_state states cid (.jobj d) now).1
            = some r'
          ∧ (dmem "kaiTagConnected" d = false → r'.kaiTagConnected = .jbool true)
          ∧ (dmem "team" d = false → r'.team = .jstr "blue")
          ∧ r'.timestamp = now) := by
  refine ⟨?_, ?_, ?_⟩
  · intro clients states sid d now
    refine ⟨{ lat := dget d "lat" (.jnum 0), lon := dget d "lon" (.jnum 0),
              bearing := dget d "bearing" (.jnum 0),
              team := dget d "team" (.jstr "blue"),
              isDead := dget d "isDead" (.jbool false),
              kaiTagConnected := dget d "kaiTagConnected" (.jbool false),
              timestamp := now * 1000 }, ?_, ?_, ?_, ?_, ?_, ?_, ?_, rfl⟩
    · simp [Ally.update_state, lookup_tinsert_self]
    · exact fun h => dget_absent _ _ _ h
    · exact fun h => dget_absent _ _ _ h
    · exact fun h => dget_absent _ _ _ h
    · exact fun h => dget_absent _ _ _ h
    · exact fun h => dget_absent _ _ _ h
    · exact fun h => dget_absent _ _ _ h
  · intro states sid d now hnone
    refine ⟨Srv.mergeRec none d now, ?_, ?_, ?_, ?_, ?_, ?_, ?_, rfl⟩
    · simp [Srv.handle_update_state, hnone, lookup_tinsert_self]
    · intro h; simp [Srv.mergeRec, dget_absent _ _ _ h]
    · intro h; simp [Srv.mergeRec, dget_absent _ _ _ h]
    · intro h; simp [Srv.mergeRec, dget_absent _ _ _ h]
    · intro h; simp [Srv.mergeRec, h]
    · intro h; simp [Srv.mergeRec, dget_absent _ _ _ h]
    · intro h; simp [Srv.mergeRec, dget_absent _ _ _ h]
  · intro states cid d now hnone hne
    refine ⟨Rest.mergeRec none d now, ?_, ?_, ?_, rfl⟩
    · simp [Rest.update_client_state, truthy, hne, hnone, lookup_tinsert_self]
    · intro h; simp [Rest.mergeRec, dget_absent _ _ _ h]
    · intro h; simp [Rest.mergeRec, h]

/-- Claim C6 amended, checked at a concrete input: a first empty update in
src/ally-server.py creates the all-default record with a millisecond
timestamp. -/
theorem c6_creation_defaults_w :
    ∃ r', List.lookup "A" (Ally.update_state [] [] "A" (.jobj []) 3).2.1 = some r'
      ∧ r'.kaiTagConnected = .jbool false ∧ r'.timestamp = 3 * 1000 := by
  obtain ⟨r', hl, _, _, _, _, _, hk, ht⟩ :=
    c6_creation_defaults.1 [] [] "A" [] 3
  exact ⟨r', hl, hk rfl, ht⟩

/-- Claim C7: a numeric update_bearing applied to an identity with an
existing presence record changes only the bearing and timestamp fields of
that record, leaving tagLinked, isDead, team, latitude and longitude as they
were, and leaves every other identity's record untouched, both in the socket
handler of src/server.py and in the REST route of src/rest_server.py. -/
theorem c7_update_bearing_frame (states : Table Srv.SRec) (sid : String)
    (b : JVal) (now : ℚ) (r : Srv.SRec)
    (hb : isNumericPy b = true) (hr : List.lookup sid states = some r) :
    List.lookup sid (Srv.handle_update_bearing states sid b now).1
      = some { r with bearing := b, timestamp := now }
    ∧ (∀ other, other ≠ sid →
        List.lookup other (Srv.handle_update_bearing states sid b now).1
          = List.lookup other states)
    ∧ (∀ (rstates : Table Rest.RRec) (cid : String) (r2 : Rest.RRec),
        List.lookup cid rstates = some r2 →
        List.lookup cid
            (Rest.update_client_bearing rstates cid (.jobj [("bearing", b)]) now).1
          = some { r2 with bearing := b, timestamp := now }
        ∧ ∀ other, other ≠ cid →
            List.lookup other
                (Rest.update_client_bearing rstates cid (.jobj [("bearing", b)]) now).1
              = List.lookup other rstates) := by
  refine ⟨?_, ?_, ?_⟩
  · simp [Srv.handle_update_bearing, hr, hb, lookup_tinsert_self]
  · intro other hother
    simp [Srv.handle_update_bearing, hr, hb, lookup_tinsert_ne sid other _ states hother]
  · intro rstates cid r2 hr2
    have hd : List.lookup "bearing" ([("bearing", b)] : Dict) = some b := by
      simp [List.lookup]
    constructor
    · simp [Rest.update_client_bearing, truthy, Rest.pyContains, dmem, hd,
        dget_present _ _ _ _ hd, hb, hr2, lookup_tinsert_self]
    · intro other hother
      simp [Rest.update_client_bearing, truthy, Rest.pyContains, dmem, hd,
        dget_present _ _ _ _ hd, hb, hr2, lookup_tinsert_ne cid other _ rstates hother]

/-- Claim C7, checked at a concrete input: a bearing of 90 on an existing
default record updates only bearing and timestamp. -/
theorem c7_update_bearing_frame_w :
    List.lookup "A"
        (Srv.handle_update_bearing [("A", Srv.defaultBearingRec)] "A" (.jnum 90) 9).1
      = some { Srv.defaultBearingRec with bearing := .jnum 90, timestamp := 9 } :=
  (c7_update_bearing_frame [("A", Srv.defaultBearingRec)] "A" (.jnum 90) 9
    Srv.defaultBearingRec rfl rfl).1

/-- Claim C9: the isinstance int-or-float check accepts Python booleans, so a
bearing update whose bearing is true or false passes validation, the boolean
is stored as the bearing, and the REST endpoint of src/rest_server.py
answers success rather than 400; the socket handler of src/server.py
likewise stores the boolean and broadcasts bearing_updated. -/
theorem c9_bool_bearing_accepted (b : Bool) (rstates : Table Rest.RRec)
    (cid : String) (now : ℚ) (sstates : Table Srv.SRec) (sid : String) :
    isNumericPy (.jbool b) = true
    ∧ (Rest.update_client_bearing rstates cid (.jobj [("bearing", .jbool b)]) now).2
        = .ok
    ∧ (∃ r, List.lookup cid
          (Rest.update_client_bearing rstates cid (.jobj [("bearing", .jbool b)]) now).1
            = some r ∧ r.bearing = .jbool b)
    ∧ (Srv.handle_update_bearing sstates sid (.jbool b) now).2
        = [(.bearing_updated sid (.jbool b) now, .broadcast)]
    ∧ (∃ r, List.lookup sid (Srv.handle_update_bearing sstates sid (.jbool b) now).1
          = some r ∧ r.bearing = .jbool b) := by
  have hd : List.lookup "bearing" ([("bearing", JVal.jbool b)] : Dict)
      = some (.jbool b) := by
    simp [List.lookup]
  refine ⟨rfl, ?_, ?_, ?_, ?_⟩
  · cases hx : List.lookup cid rstates with
    | some r =>
        simp [Rest.update_client_bearing, truthy, Rest.pyContains, dmem, hd,
          dget_present _ _ _ _ hd, hx, isNumericPy]
    | none =>
        simp [Rest.update_client_bearing, truthy, Rest.pyContains, dmem, hd,
          dget_present _ _ _ _ hd, hx, isNumericPy, lookup_tinsert_self]
  · cases hx : List.lookup cid rstates with
    | some r =>
        refine ⟨{ r with bearing := .jbool b, timestamp := now }, ?_, rfl⟩
        simp [Rest.update_client_bearing, truthy, Rest.pyContains, dmem, hd,
          dget_present _ _ _ _ hd, hx, isNumericPy, lookup_tinsert_self]
    | none =>
        refine ⟨{ lat := .jnum 0, lon := .jnum 0, bearing := .jbool b,
                  kaiTagConnected := .jbool true, isDead := .jbool false,
                  team := .jstr "blue", timestamp := now }, ?_, rfl⟩
        simp [Rest.update_client_bearing, truthy, Rest.pyContains, dmem, hd,
          dget_present _ _ _ _ hd, hx, isNumericPy, lookup_tinsert_self]
  · cases hx : List.lookup sid sstates with
    | some r => simp [Srv.handle_update_bearing, hx, isNumericPy]
    | none => simp [Srv.handle_update_bearing, hx, isNumericPy, lookup_tinsert_self]
  · cases hx : List.lookup sid sstates with
    | some r =>
        refine ⟨{ r with bearing := .jbool b, timestamp := now }, ?_, rfl⟩
        simp [Srv.handle_update_bearing, hx, isNumericPy, lookup_tinsert_self]
    | none =>
        refine ⟨{ Srv.defaultBearingRec with bearing := .jbool b, timestamp := now },
          ?_, rfl⟩
        simp [Srv.handle_update_bearing, hx, isNumericPy, lookup_tinsert_self]

/-- Claim C10: the REST state route of src/rest_server.py rejects an empty
JSON object body with 400 and no mutation, although an empty dict is a
well-formed mapping and the socket update_state path of src/server.py
accepts the empty partial update, storing a record and broadcasting. -/
theorem c10_rest_rejects_empty (rstates : Table Rest.RRec) (cid : String)
    (now : ℚ) (sstates : Table Srv.SRec) (sid : String) :
    Rest.update_client_state rstates cid (.jobj []) now = (rstates, .err400)
    ∧ (Srv.handle_update_state sstates sid (.jobj []) now).2 ≠ []
    ∧ (List.lookup sid (Srv.handle_update_state sstates sid (.jobj []) now).1).isSome
        = true := by
  refine ⟨rfl, ?_, ?_⟩
  · simp [Srv.handle_update_state]
  · simp [Srv.handle_update_state, lookup_tinsert_self]

/-- Claim C4: in a reaper pass of src/ally-server.py, every identity whose
last update is more than 60 seconds old is removed from both the connection
registry and the state table, an all_states broadcast is emitted exactly
when at least one such stale identity existed in the registry, and no
client_disconnected is ever emitted by the pass. -/
theorem c4_reaper (clients : Table Ally.ConnRec) (states : Table Ally.ARec)
    (now : ℚ) :
    (∀ sid c, List.lookup sid clients = some c → 60 < now - c.lastUpdate →
      List.lookup sid (Ally.cleanup_stale_clients clients states now).1 = none
      ∧ List.lookup sid (Ally.cleanup_stale_clients clients states now).2.1 = none)
    ∧ ((Ally.cleanup_stale_clients clients states now).2.2 ≠ []
        ↔ ∃ p ∈ clients, 60 < now - p.2.lastUpdate)
    ∧ (∀ o ∈ (Ally.cleanup_stale_clients clients states now).2.2,
        o.1.isClientDisconnected = false) := by
  refine ⟨?_, ?_, ?_⟩
  · intro sid c hl hs
    have hmem : sid ∈ (clients.filter
        (fun p => decide (60 < now - p.2.lastUpdate))).map Prod.fst := by
      refine List.mem_map.mpr ⟨(sid, c), ?_, rfl⟩
      refine List.mem_filter.mpr ⟨lookup_some_mem sid c clients hl, ?_⟩
      simpa using hs
    constructor
    · simpa [Ally.cleanup_stale_clients] using
        lookup_foldl_terase_mem sid _ clients hmem
    · simpa [Ally.cleanup_stale_clients] using
        lookup_foldl_terase_mem sid _ states hmem
  · have hiff : (((clients.filter
        (fun p => decide (60 < now - p.2.lastUpdate))).map Prod.fst) = [])
        ↔ ¬ ∃ p ∈ clients, 60 < now - p.2.lastUpdate := by
      rw [List.map_eq_nil_iff, List.filter_eq_nil_iff]
      constructor
      · intro h
        rintro ⟨p, hp, hgt⟩
        have hq := h p hp
        simp only [decide_eq_true_eq] at hq
        exact hq hgt
      · intro h p hp
        simp only [decide_eq_true_eq]
        exact fun hgt => h ⟨p, hp, hgt⟩
    constructor
    · intro hne
      by_contra hno
      have hemp : (((clients.filter
          (fun p => decide (60 < now - p.2.lastUpdate))).map Prod.fst).isEmpty = true) := by
        rw [List.isEmpty_iff]
        exact hiff.mpr hno
      simp [Ally.cleanup_stale_clients, hemp] at hne
    · intro hex
      have hemp : (((clients.filter
          (fun p => decide (60 < now - p.2.lastUpdate))).map Prod.fst).isEmpty = false) := by
        rcases Bool.eq_false_or_eq_true (((clients.filter
            (fun p => decide (60 < now - p.2.lastUpdate))).map Prod.fst).isEmpty) with
          h | h
        · exact absurd hex (hiff.mp (List.isEmpty_iff.mp h))
        · exact h
      simp [Ally.cleanup_stale_clients, hemp]
  · intro o ho
    by_cases h : (((clients.filter
        (fun p => decide (60 < now - p.2.lastUpdate))).map Prod.fst).isEmpty) = true
    · simp [Ally.cleanup_stale_clients, h] at ho
    · simp only [Bool.not_eq_true] at h
      simp [Ally.cleanup_stale_clients, h] at ho
      rw [ho]
      rfl

/-- Claim C4, checked at a concrete input: a registry entry last updated at
time 0 is removed from both tables when the reaper runs at time 100. -/
theorem c4_reaper_w :
    List.lookup "A" (Ally.cleanup_stale_clients
        [("A", { connectedAt := 0, ip := "local", lastUpdate := 0 })]
        [("A", allyBlueRec)] 100).1 = none
    ∧ List.lookup "A" (Ally.cleanup_stale_clients
        [("A", { connectedAt := 0, ip := "local", lastUpdate := 0 })]
        [("A", allyBlueRec)] 100).2.1 = none :=
  (c4_reaper [("A", { connectedAt := 0, ip := "local", lastUpdate := 0 })]
    [("A", allyBlueRec)] 100).1 "A"
    { connectedAt := 0, ip := "local", lastUpdate := 0 } rfl (by norm_num)

theorem mem_filter_map_fst_iff (p : String × α → Bool) (t : Table α) (k : String) :
    (t.map Prod.fst).Nodup →
    (k ∈ (t.filter p).map Prod.fst
      ↔ ∃ v, List.lookup k t = some v ∧ p (k, v) = true) := by
  induction t with
  | nil =>
      intro _
      simp [List.lookup]
  | cons q t ih =>
      intro hnd
      obtain ⟨a, b⟩ := q
      simp only [List.map_cons, List.nodup_cons] at hnd
      obtain ⟨hna, hnd'⟩ := hnd
      by_cases hk : k = a
      · subst hk
        have hlk : List.lookup k ((k, b) :: t) = some b := by
          simp [List.lookup]
        by_cases hp : p (k, b) = true
        · constructor
          · intro _
            exact ⟨b, hlk, hp⟩
          · intro _
            simp [List.filter_cons, hp]
        · constructor
          · intro hmem
            rw [List.filter_cons_of_neg (by simpa using hp)] at hmem
            exfalso
            apply hna
            rcases List.mem_map.mp hmem with ⟨w, hw, hwk⟩
            exact List.mem_map.mpr ⟨w, List.mem_of_mem_filter hw, hwk⟩
          · rintro ⟨v, hv, hpv⟩
            rw [hlk] at hv
            injection hv with hv
            subst hv
            exact absurd hpv hp
      · have h2 : (k == a) = false := by rw [beq_eq_false_iff_ne]; exact hk
        have hlk : List.lookup k ((a, b) :: t) = List.lookup k t := by
          simp [List.lookup, h2]
        by_cases hp : p (a, b) = true
        · rw [List.filter_cons_of_pos (by simpa using hp), List.map_cons, hlk]
          constructor
          · intro hmem
            rcases List.mem_cons.mp hmem with h1 | hmem'
            · exact absurd h1 hk
            · exact (ih hnd').mp hmem'
          · intro hx
            exact List.mem_cons.mpr (Or.inr ((ih hnd').mpr hx))
        · rw [List.filter_cons_of_neg (by simpa using hp), hlk]
          exact ih hnd'

theorem delivers_toSid_any (msg : Ally.Msg) (hmsg : msg.isNewDrawing = true)
    (ts : List String) (r : String) (conn : List String)
    (hconn : conn.contains r = true) :
    Ally.deliversNewDrawing (ts.map (fun t => (msg, Target.toSid t))) r conn = true
      ↔ r ∈ ts := by
  have hmem : r ∈ conn := by simpa using hconn
  unfold Ally.deliversNewDrawing
  constructor
  · intro h
    obtain ⟨o, ho, hpo⟩ := List.any_eq_true.mp h
    obtain ⟨x, hx, hfx⟩ := List.mem_map.mp ho
    rw [← hfx] at hpo
    simp only [Target.hits, hmsg, Bool.true_and, Bool.and_eq_true] at hpo
    obtain ⟨h1, _⟩ := hpo
    rw [beq_iff_eq.mp h1]
    exact hx
  · intro h
    apply List.any_eq_true.mpr
    refine ⟨(msg, Target.toSid r), List.mem_map.mpr ⟨r, h, rfl⟩, ?_⟩
    simp [Target.hits, hmsg, hmem]

theorem ally_share_drawing_delivers (states : Table Ally.ARec) (sid : String)
    (d : Dict) (now : ℚ) (conn : List String) (r : String)
    (hnd : (states.map Prod.fst).Nodup) (hconn : conn.contains r = true) :
    Ally.deliversNewDrawing (Ally.share_drawing states sid (.jobj d) now) r conn = true
      ↔ ∃ rec, List.lookup r states = some rec
          ∧ pyEq rec.team (dget d "team" (.jstr "blue")) = true ∧ r ≠ sid := by
  have hrw : Ally.share_drawing states sid (.jobj d) now
      = ((states.filter (fun p => pyEq p.2.team (dget d "team" (.jstr "blue"))
            && p.1 != sid)).map Prod.fst).map
          (fun t => (Ally.Msg.new_drawing sid (dget d "geojson" (.jobj []))
            (dget d "team" (.jstr "blue")) (now * 1000), Target.toSid t)) := rfl
  rw [hrw, delivers_toSid_any
      (Ally.Msg.new_drawing sid (dget d "geojson" (.jobj []))
        (dget d "team" (.jstr "blue")) (now * 1000)) rfl _ r conn hconn,
    mem_filter_map_fst_iff _ states r hnd]
  constructor
  · rintro ⟨v, hv, hpv⟩
    simp only [Bool.and_eq_true] at hpv
    obtain ⟨hteam, hne⟩ := hpv
    exact ⟨v, hv, hteam, by simpa [bne_iff_ne] using hne⟩
  · rintro ⟨rec, hrec, hteam, hne⟩
    refine ⟨rec, hrec, ?_⟩
    simp [hteam, bne_iff_ne, hne]

/-- Claim C2 counterexample: with A and C stored on team red and B stored on
team blue, handle_share_drawing of src/server.py delivers A's red drawing to
connected client B as well, although B's stored team differs from the
payload team. -/
theorem c2_broadcast_ignores_team_cex :
    Srv.deliversNewDrawing
        (Srv.handle_share_drawing "A"
          (.jobj [("geojson", .jobj []), ("team", .jstr "red")]))
        "B" ["A", "B", "C"] = true
    ∧ (List.lookup "B"
        [("A", srvRedRec), ("B", Srv.defaultBearingRec), ("C", srvRedRec)]).map
          Srv.SRec.team = some (.jstr "blue")
    ∧ pyEq (.jstr "blue") (.jstr "red") = false :=
  ⟨rfl, rfl, rfl⟩

/-- Claim C2 (amended): in src/ally-server.py a share_drawing with a dict
payload carrying a team value delivers new_drawing exactly to the connected
identities whose stored team equals the payload team, excluding the sender;
in src/server.py the handler instead broadcasts the drawing to every other
connected client regardless of team. -/
theorem c2_team_scoped_delivery :
    (∀ (states : Table Ally.ARec) (sid : String) (d : Dict) (now : ℚ)
       (conn : List String) (r : String),
      (states.map Prod.fst).Nodup →
      dmem "team" d = true →
      conn.contains r = true →
      (Ally.deliversNewDrawing (Ally.share_drawing states sid (.jobj d) now) r conn
          = true
        ↔ ∃ rec, List.lookup r states = some rec
            ∧ pyEq rec.team (dget d "team" (.jstr "blue")) = true ∧ r ≠ sid))
    ∧ (∀ (sid : String) (d : Dict) (conn : List String) (r : String),
        dmem "geojson" d = true → dmem "team" d = true →
        conn.contains r = true → r ≠ sid →
        Srv.deliversNewDrawing (Srv.handle_share_drawing sid (.jobj d)) r conn
          = true) := by
  constructor
  · intro states sid d now conn r hnd _ hconn
    exact ally_share_drawing_delivers states sid d now conn r hnd hconn
  · intro sid d conn r hg ht hconn hne
    have hmem : r ∈ conn := by simpa using hconn
    simp [Srv.handle_share_drawing, hg, ht, Srv.deliversNewDrawing,
      Srv.Msg.isNewDrawing, Target.hits, hmem, bne_iff_ne, hne]

/-- Claim C2 amended, checked at a concrete input: B on team blue receives
A's blue drawing from src/ally-server.py. -/
theorem c2_team_scoped_delivery_w :
    Ally.deliversNewDrawing
        (Ally.share_drawing [("B", allyBlueRec)] "A"
          (.jobj [("team", .jstr "blue")]) 1) "B" ["A", "B"] = true :=
  (c2_team_scoped_delivery.1 [("B", allyBlueRec)] "A" [("team", .jstr "blue")] 1
    ["A", "B"] "B" (by simp) rfl rfl).mpr
    ⟨allyBlueRec, rfl, rfl, by decide⟩

/-- Claim C8 counterexample: share_drawing in src/ally-server.py does not
require the geojson and team keys: an empty dict payload, lacking both, is
still relayed (with the defaults) to the stored clients on team blue instead
of being dropped. -/
theorem c8_ally_defaults_cex :
    Ally.share_drawing [("B", allyBlueRec)] "A" (.jobj []) 2
      = [(.new_drawing "A" (.jobj []) (.jstr "blue") (2 * 1000), .toSid "B")]
    ∧ dmem "geojson" ([] : Dict) = false
    ∧ dmem "team" ([] : Dict) = false :=
  ⟨rfl, rfl, rfl⟩

/-- Claim C8 (amended): in src/server.py a dict share_drawing payload
lacking the geojson key or the team key is dropped, with no new_drawing sent
and no state mutated; in src/ally-server.py such a payload is not dropped:
the missing team defaults to blue and the drawing is delivered exactly to
the connected stored identities on team blue other than the sender (neither
handler mutates any state on this path). -/
theorem c8_share_drawing_missing_keys :
    (∀ (sid : String) (d : Dict),
      dmem "geojson" d = false ∨ dmem "team" d = false →
      Srv.handle_share_drawing sid (.jobj d) = [])
    ∧ (∀ (states : Table Ally.ARec) (sid : String) (d : Dict) (now : ℚ)
        (conn : List String) (r : String),
        (states.map Prod.fst).Nodup →
        dmem "team" d = false →
        conn.contains r = true →
        (Ally.deliversNewDrawing (Ally.share_drawing states sid (.jobj d) now) r conn
            = true
          ↔ ∃ rec, List.lookup r states = some rec
              ∧ pyEq rec.team (.jstr "blue") = true ∧ r ≠ sid)) := by
  constructor
  · intro sid d h
    rcases h with h | h <;> simp [Srv.handle_share_drawing, h]
  · intro states sid d now conn r hnd ht hconn
    have hbase := ally_share_drawing_delivers states sid d now conn r hnd hconn
    rwa [dget_absent _ _ _ ht] at hbase

/-- Claim C8 amended, checked at a concrete input: a payload with only a team
key (no geojson) is dropped by src/server.py. -/
theorem c8_share_drawing_missing_keys_w :
    Srv.handle_share_drawing "A" (.jobj [("team", .jstr "red")]) = [] :=
  c8_share_drawing_missing_keys.1 "A" [("team", .jstr "red")] (Or.inl rfl)
